import Mathlib

/-!
A shallow embedding of `DRAMMIMO.py` (Delayed Rejection Adaptive Metropolis,
multi input multi output): the chain generator `getDRAMMIMOChains`, the
density estimator `getDRAMMIMODensities` and the interval propagator
`getDRAMMIMOIntervals`, together with theorems checking the specified
properties against the embedding.

Modelling conventions, fixed once for the whole file:
* Python floats are modelled as rationals `ℚ`.  A float that may be
  non-finite (the residual matrices, which the source fills with
  `float('inf')` or which a caller-supplied error function may turn into
  `NaN`) is modelled as `Option ℚ`, with `none` standing for a non-finite
  value.  The sum-of-squares `SS1`, which the source sets to `float('inf')`
  on a rejected candidate, is likewise an `Option ℚ` with `none` = `+inf`.
* Library collaborators (`np.exp`, `np.sqrt`, `np.power`, `np.pi`,
  `scipy.linalg.inv`, `scipy.linalg.cholesky`) are irrational-valued float
  routines; they are passed in as explicit function parameters collected in
  `NumLib`, so every definition stays computable and no theorem depends on
  their values.
* Random draws (`np.random.randn`, `np.random.rand`,
  `scipy.stats.invwishart.rvs`, `np.random.multivariate_normal`) are passed
  in as explicit per-iteration streams; a distribution draw is modelled as a
  function from the distribution's parameters to the drawn value, so the
  parameters the source passes remain visible in the embedding.
* Vectors and matrices are total functions on `ℕ` indices with explicit
  dimension arguments to each operation, mirroring numpy's index arithmetic;
  entries beyond the declared dimensions are phantom.
* The `print`/`np.savez_compressed` checkpointing side effects of the source
  are I/O and are elided; they do not touch the numerical state.
-/

namespace DRAMMIMO

/-- A float vector, indexed by `ℕ`. -/
abbrev Vec : Type := ℕ → ℚ

/-- A float matrix, indexed by `ℕ × ℕ`. -/
abbrev Mat : Type := ℕ → ℕ → ℚ

/-- A residual matrix whose entries may be non-finite (`none`). -/
abbrev ErrMat : Type := ℕ → ℕ → Option ℚ

/-- The all-zero vector. -/
def zeroVec : Vec := fun _ => 0

/-- The all-zero matrix. -/
def zeroMat : Mat := fun _ _ => 0

/-- Matrix product with inner dimension `k` (`np.dot`). -/
def mmulIdx (k : ℕ) (A B : Mat) : Mat :=
  fun i j => ∑ t ∈ Finset.range k, A i t * B t j

/-- Trace of the leading `n × n` block (`np.trace`). -/
def mtraceIdx (n : ℕ) (A : Mat) : ℚ :=
  ∑ i ∈ Finset.range n, A i i

/-- Matrix transpose (`.T`). -/
def mtransp (A : Mat) : Mat := fun i j => A j i

/-- Entrywise matrix sum. -/
def madd (A B : Mat) : Mat := fun i j => A i j + B i j

/-- Entrywise reciprocal, the source's `1.0/cov` shortcut for `1 × 1` matrices. -/
def recipMat (A : Mat) : Mat := fun i j => 1 / A i j

/-- Matrix times scalar (`A*c`). -/
def matScale (A : Mat) (c : ℚ) : Mat := fun i j => A i j * c

/-- Read a residual matrix as a float matrix.  In the source every residual
that reaches this point is finite, so the `getD 0` default is never exercised
on a reachable state. -/
def unopt (E : ErrMat) : Mat := fun t i => (E t i).getD 0

/-- `np.tile(float('inf'), (n, N))`: the all-non-finite residual matrix. -/
def infErrMat : ErrMat := fun _ _ => none

/-- `SS = np.trace(np.dot(np.dot(err.T, err), cov_err_inv))` for an `n × N`
residual `E` and an `N × N` inverse covariance `C`. -/
def ssq (n N : ℕ) (E C : Mat) : ℚ :=
  mtraceIdx N (mmulIdx N (mmulIdx n (mtransp E) E) C)

/-- The quadratic form `d.T @ C @ d` over the leading `p` coordinates. -/
def quadFormIdx (p : ℕ) (d : Vec) (C : Mat) : ℚ :=
  ∑ a ∈ Finset.range p, ∑ b ∈ Finset.range p, d a * C a b * d b

/-- Pointwise vector difference. -/
def vsub (v w : Vec) : Vec := fun i => v i - w i

/-- Mean of rows `0, …, m-1` of a chain (`np.mean(chain[0:m, :], 0)`). -/
def meanRowsIdx (m : ℕ) (ch : ℕ → Vec) : Vec :=
  fun i => (∑ t ∈ Finset.range m, ch t i) / m

/-- Sample covariance (`np.cov`, default `ddof = 1`) of rows `0, …, m-1`. -/
def covRowsIdx (m : ℕ) (ch : ℕ → Vec) : Mat :=
  fun a b =>
    (∑ t ∈ Finset.range m,
        (ch t a - meanRowsIdx m ch a) * (ch t b - meanRowsIdx m ch b)) /
      ((m : ℚ) - 1)

/-- The numerical-library collaborators of the source (`numpy`/`scipy`),
passed in as functions: `rexp` is `np.exp`, `rsqrt` is `np.sqrt`, `rpow` is
`np.power`, `npi` is `np.pi`, `inv d` is `scipy.linalg.inv` on `d × d`
matrices, and `chol` is `scipy.linalg.cholesky`. -/
structure NumLib where
  rexp : ℚ → ℚ
  rsqrt : ℚ → ℚ
  rpow : ℚ → ℚ → ℚ
  npi : ℚ
  inv : ℕ → Mat → Mat
  chol : Mat → Mat

/-- The random draws one iteration of the sampling loop may consume:
`z1`, `u1` for the stage-1 proposal and acceptance test, `z2`, `u2` for the
stage-2 proposal and acceptance test, and `iw`, the iteration's
`scipy.stats.invwishart.rvs` draw as a function of the degrees of freedom and
scale matrix the source passes to it. -/
structure IterRand where
  z1 : Vec
  u1 : ℚ
  z2 : Vec
  u2 : ℚ
  iw : ℚ → Mat → Mat

/-- The per-run context of `getDRAMMIMOChains`: the dimensions `p` (number of
estimated parameters), `n` (points per dataset), `N` (number of datasets),
the numerical library, the parameter bounds, the residual evaluator
(`model['errFun'][i](q, xdata[i], ydata[i], extra[i])` for all datasets at
once, as an `n × N` residual matrix), and the inverse-Wishart prior
hyperparameters `psi`/`nu`. -/
structure Ctx where
  p : ℕ
  n : ℕ
  N : ℕ
  lib : NumLib
  lower : Vec
  upper : Vec
  errEval : Vec → ErrMat
  psi : Mat
  nu : ℚ

/-- The adaptation interval `ko = 100`. -/
def ko : ℕ := 100

/-- The adaptive scale `sp = 2.38/np.sqrt(p)`. -/
def spOf (lib : NumLib) (p : ℕ) : ℚ := (238 / 100) / lib.rsqrt p

/-- `any(q.T[0,:] < lowerLimits) or any(q.T[0,:] > upperLimits)` over the `p`
components. -/
def outOfBounds (p : ℕ) (lower upper q : Vec) : Bool :=
  ((List.range p).any fun i => decide (q i < lower i)) ||
    ((List.range p).any fun i => decide (upper i < q i))

/-- `np.any(np.isnan(err))` on an `n × N` residual matrix. -/
def hasNaNEntry (n N : ℕ) (E : ErrMat) : Bool :=
  (List.range n).any fun t => (List.range N).any fun i => (E t i).isNone

/-- A random-walk proposal `q0 + np.dot(R.T, z)`. -/
def propose (p : ℕ) (q0 : Vec) (R : Mat) (z : Vec) : Vec :=
  fun i => q0 i + ∑ t ∈ Finset.range p, R t i * z t

/-- The quantities the stage-1 branch of the source produces: the candidate's
residual `err1`, its sum-of-squares `SS1` (`none` = `float('inf')`), and the
acceptance probability `alpha10`. -/
structure Stage1Out where
  err1 : ErrMat
  ss1 : Option ℚ
  alpha10 : ℚ

/-- Stage 1 of the delayed rejection (source lines 219–245), given the
precomputed `SS0` (which the source computes by the same expression in every
branch) and the stage-1 candidate `q1`. -/
def stage1Eval (c : Ctx) (covErrInv : Mat) (SS0 : ℚ) (q1 : Vec) : Stage1Out :=
  if outOfBounds c.p c.lower c.upper q1 then
    { err1 := infErrMat, ss1 := none, alpha10 := min 1 0 }
  else
    let e := c.errEval q1
    if hasNaNEntry c.n c.N e then
      { err1 := infErrMat, ss1 := none, alpha10 := min 1 0 }
    else
      let SS1 := ssq c.n c.N (unopt e) covErrInv
      { err1 := e, ss1 := some SS1,
        alpha10 := min 1 (c.lib.rexp (-(1 / 2) * (SS1 - SS0))) }

/-- The stage-2 acceptance probability `alpha210` (source lines 296–299):
`0` when `alpha12 == 1`, otherwise
`min(1, pi20*J12/J10*(1-alpha12)/(1-alpha10))`. -/
def alpha210Of (alpha10 pi20 J12 J10 alpha12 : ℚ) : ℚ :=
  if alpha12 = 1 then 0
  else min 1 (pi20 * J12 / J10 * (1 - alpha12) / (1 - alpha10))

/-- The quantities the stage-2 branch of the source produces. -/
structure Stage2Out where
  err2 : ErrMat
  alpha210 : ℚ

/-- Stage 2 of the delayed rejection (source lines 261–299), given `SS0`,
the stage-1 sum-of-squares `SS1` (`none` = `float('inf')`, in which case
`np.exp(-0.5*(SS1-SS2))` is exactly `0.0`), the stage-1 `alpha10`, and the
three states `q0`, `q1`, `q2`. -/
def stage2Eval (c : Ctx) (covErrInv covQInv : Mat) (SS0 : ℚ) (SS1w : Option ℚ)
    (alpha10 : ℚ) (q0 q1 q2 : Vec) : Stage2Out :=
  if outOfBounds c.p c.lower c.upper q2 then
    { err2 := infErrMat, alpha210 := 0 }
  else
    let e := c.errEval q2
    if hasNaNEntry c.n c.N e then
      { err2 := infErrMat, alpha210 := 0 }
    else
      let SS2 := ssq c.n c.N (unopt e) covErrInv
      let pi20 := c.lib.rexp (-(1 / 2) * (SS2 - SS0))
      let J12 := c.lib.rexp (-(1 / 2) * quadFormIdx c.p (vsub q1 q2) covQInv)
      let J10 := c.lib.rexp (-(1 / 2) * quadFormIdx c.p (vsub q1 q0) covQInv)
      let pi12 :=
        match SS1w with
        | none => (0 : ℚ)
        | some s1 => c.lib.rexp (-(1 / 2) * (s1 - SS2))
      let alpha12 := min 1 pi12
      { err2 := e, alpha210 := alpha210Of alpha10 pi20 J12 J10 alpha12 }

/-- Which of the three outcomes an iteration's delayed rejection took. -/
inductive DROutcome : Type where
  | accept1 : DROutcome
  | accept2 : DROutcome
  | reject : DROutcome
deriving DecidableEq

/-- The result of one delayed-rejection decision: the new best state `q`, its
residual `err`, and the outcome tag. -/
structure DROut where
  q : Vec
  err : ErrMat
  outcome : DROutcome

/-- The mutable working set of the sampling loop, exactly the variables the
source threads across iterations of `getDRAMMIMOChains`. -/
structure RunState where
  q : Vec
  err : ErrMat
  covQ : Mat
  covQInv : Mat
  covErr : Mat
  covErrInv : Mat
  qBar : Vec
  qCov : Mat
  R1 : Mat
  R2 : Mat
  chain : ℕ → Vec
  lastCovQ : Mat
  chainCovErr : ℕ → Mat

/-- One full delayed-rejection decision (source lines 210–309): stage-1
proposal and acceptance test, then, on rejection, stage-2 proposal and
acceptance test, else keep the old state. -/
def drStage (c : Ctx) (s : RunState) (r : IterRand) : DROut :=
  let SS0 := ssq c.n c.N (unopt s.err) s.covErrInv
  let q1 := propose c.p s.q s.R1 r.z1
  let s1 := stage1Eval c s.covErrInv SS0 q1
  if s1.alpha10 > r.u1 then
    { q := q1, err := s1.err1, outcome := DROutcome.accept1 }
  else
    let q2 := propose c.p s.q s.R2 r.z2
    let s2 := stage2Eval c s.covErrInv s.covQInv SS0 s1.ss1 s1.alpha10 s.q q1 q2
    if s2.alpha210 > r.u2 then
      { q := q2, err := s2.err2, outcome := DROutcome.accept2 }
    else
      { q := s.q, err := s.err, outcome := DROutcome.reject }

/-- One iteration of the sampling loop at index `k` (source lines 210–353):
delayed rejection, recording of `chain_q[k]`, `last_cov_q` and
`chain_cov_err[k]`, the inverse-Wishart redraw of `cov_err`, the running
mean/covariance update, and the periodic recomputation of `cov_q`, its
inverse, `R1` and `R2`.  The source computes `qBar` and then `qCov` inside
one `if k == ko-1 / elif k >= ko` ladder; the two `if` ladders below have the
same conditions and the `qCov` ladder uses the freshly updated `qBar`, so
they are that single ladder written fieldwise.  The `cov_q`/`cov_q_inv`/
`R1`/`R2` recomputation is likewise written fieldwise: it is nested inside
the `elif k >= ko` branch of the source, so its guard is
`ko ≤ k ∧ (k + Mo) % ko = 0` (at `k = ko-1` neither guard fires), and
`randomWalk = la.cholesky(cov_q)` with `cov_q = qCov.copy()` appears inlined
as `c.lib.chol qCov2` in both step matrices. -/
def amIteration (c : Ctx) (Mo k : ℕ) (r : IterRand) (s : RunState) : RunState :=
  let d := drStage c s r
  let chain2 := Function.update s.chain k d.q
  let chainCovErr2 := Function.update s.chainCovErr k s.covErr
  let covErr2 :=
    r.iw (c.nu + c.n) (madd c.psi (mmulIdx c.n (mtransp (unopt d.err)) (unopt d.err)))
  let covErrInv2 := if c.N = 1 then recipMat covErr2 else c.lib.inv c.N covErr2
  let qBar2 :=
    if k = ko - 1 then meanRowsIdx ko chain2
    else if ko ≤ k then fun i => ((k : ℚ) * s.qBar i + d.q i) / ((k : ℚ) + 1)
    else s.qBar
  let qCov2 :=
    if k = ko - 1 then covRowsIdx ko chain2
    else if ko ≤ k then fun a b =>
      ((k : ℚ) - 1) / (k : ℚ) * s.qCov a b +
        1 / (k : ℚ) *
          ((k : ℚ) * (s.qBar a * s.qBar b) -
              ((k : ℚ) + 1) * (qBar2 a * qBar2 b) + d.q a * d.q b)
    else s.qCov
  { q := d.q, err := d.err,
    covQ := if ko ≤ k ∧ (k + Mo) % ko = 0 then qCov2 else s.covQ,
    covQInv :=
      if ko ≤ k ∧ (k + Mo) % ko = 0 then
        if c.p = 1 then recipMat qCov2 else c.lib.inv c.p qCov2
      else s.covQInv,
    covErr := covErr2, covErrInv := covErrInv2, qBar := qBar2, qCov := qCov2,
    R1 :=
      if ko ≤ k ∧ (k + Mo) % ko = 0 then matScale (c.lib.chol qCov2) (spOf c.lib c.p)
      else s.R1,
    R2 :=
      if ko ≤ k ∧ (k + Mo) % ko = 0 then
        fun i j => c.lib.chol qCov2 i j * spOf c.lib c.p / 5
      else s.R2,
    chain := chain2, lastCovQ := s.covQ, chainCovErr := chainCovErr2 }

/-- The sampling loop `for k in np.arange(Mo, M, 1)`, running `steps`
iterations starting at index `k`. -/
def runLoop (c : Ctx) (Mo : ℕ) (rand : ℕ → IterRand) : ℕ → ℕ → RunState → RunState
  | _, 0, s => s
  | k, steps + 1, s => runLoop c Mo rand (k + 1) steps (amIteration c Mo k (rand k) s)

/-- The `'previousResults'` dictionary: the prior hyperparameters (with
`none` modelling the `np.empty` placeholder an unsupplied entry holds), the
previous chain rows, the last proposal covariance, and the previous
residual-covariance chain. -/
structure PrevResults where
  psi_s : Option Mat
  nu_s : Option ℚ
  chain_q : List Vec
  last_cov_q : Mat
  chain_cov_err : List Mat

/-- The prior hyperparameters `(psi_s, nu_s)` (source lines 139–148): if
`psi_s` is the `np.empty` placeholder, both default (`psi_s = 0`,
`nu_s = 0.0`); otherwise `psi_s` is taken as supplied and `nu_s` defaults to
`1.0` when it is the placeholder. -/
def priorOf (prev : PrevResults) : Mat × ℚ :=
  match prev.psi_s with
  | none => (zeroMat, 0)
  | some ps =>
    (ps,
      match prev.nu_s with
      | none => 1
      | some nus => nus)

/-- The `data` dictionary: per-dataset independent and observed series. -/
structure DataD where
  xdata : List (List ℚ)
  ydata : List (List ℚ)

/-- The `model` dictionary: per-dataset response functions
`fun(theta, xdata, extra)` and error functions
`fun(theta, xdata, ydata, extra)`, the latter returning possibly-`NaN`
(`none`) entries. -/
structure ModelD (E : Type) where
  fn : List (Vec → List ℚ → E → ℕ → ℚ)
  errFn : List (Vec → List ℚ → List ℚ → E → ℕ → Option ℚ)

/-- The `modelParams` dictionary. -/
structure ModelParamsD (E : Type) where
  values : List ℚ
  lowerLimits : List ℚ
  upperLimits : List ℚ
  extra : List E

/-- The `DRAMParams` dictionary. -/
structure DRAMParamsD where
  numDRAMIterationsDone : ℕ
  numDRAMIterations : ℕ
  previousResults : PrevResults

/-- The outputs of `getDRAMMIMOChains`. -/
structure ChainsResult where
  prior_psi : Mat
  prior_nu : ℚ
  chain_q : ℕ → Vec
  last_cov_q : Mat
  chain_cov_err : ℕ → Mat

/-- Placeholder error function used as the `getD` default when indexing the
caller's list of error functions; unreachable once the dataset counts have
been validated. -/
def defaultErrFn (E : Type) : Vec → List ℚ → List ℚ → E → ℕ → Option ℚ :=
  fun _ _ _ _ _ => some 0

/-- Placeholder response function used as the `getD` default when indexing
the caller's list of response functions. -/
def defaultFn (E : Type) : Vec → List ℚ → E → ℕ → ℚ :=
  fun _ _ _ _ => 0

/-- The initial `RunState` of a run (source lines 94–191): the starting
estimate and its residual, the initial proposal and residual covariances and
their inverses, the running mean/covariance seeds, the Cholesky step
matrices `R1 = randomWalk/1.0`, `R2 = randomWalk/5.0`, and the pre-filled
chains. -/
def initState (c : Ctx) (Mo : ℕ) (values : List ℚ) (prev : PrevResults) : RunState :=
  let q : Vec :=
    if Mo = 1 then fun i => values.getD i 0
    else prev.chain_q.getD (prev.chain_q.length - 1) zeroVec
  let err := c.errEval q
  let covQ :=
    if Mo = 1 then
      fun i j => if i = j then (if q i ≠ 0 then (5 / 100 * q i) ^ 2 else 1) else 0
    else prev.last_cov_q
  let covQInv := if c.p = 1 then recipMat covQ else c.lib.inv c.p covQ
  let covErr :=
    if Mo = 1 then mmulIdx c.n (mtransp (unopt err)) (unopt err)
    else prev.chain_cov_err.getD (prev.chain_cov_err.length - 1) zeroMat
  let covErrInv := if c.N = 1 then recipMat covErr else c.lib.inv c.N covErr
  let qBar :=
    if Mo = 1 then q
    else meanRowsIdx prev.chain_q.length fun t => prev.chain_q.getD t zeroVec
  let rw := c.lib.chol covQ
  { q := q, err := err, covQ := covQ, covQInv := covQInv,
    covErr := covErr, covErrInv := covErrInv, qBar := qBar, qCov := covQ,
    R1 := rw, R2 := fun i j => rw i j / 5,
    chain :=
      if Mo = 1 then Function.update (fun _ => zeroVec) 0 q
      else fun t => if t < Mo then prev.chain_q.getD t zeroVec else zeroVec,
    lastCovQ := covQ,
    chainCovErr :=
      if Mo = 1 then Function.update (fun _ => zeroMat) 0 covErr
      else fun t => if t < Mo then prev.chain_cov_err.getD t zeroMat else zeroMat }

/-- `getDRAMMIMOChains` (source lines 52–361): validation of the dataset
counts, the per-dataset point counts and the continuation length, then the
initialization and the sampling loop.  Validation failures raise
`ValueError` in the source; the embedding returns them as `Except.error`
before any sampling state is built, so a failed call produces no partial
chain. -/
def getDRAMMIMOChains {E : Type} [Inhabited E] (lib : NumLib) (rand : ℕ → IterRand)
    (data : DataD) (model : ModelD E) (mp : ModelParamsD E) (dp : DRAMParamsD) :
    Except String ChainsResult :=
  let N := data.xdata.length
  if data.ydata.length ≠ N ∨ model.fn.length ≠ N ∨ model.errFn.length ≠ N ∨
      mp.extra.length ≠ N then
    Except.error "Unequal numbers of sets in either data or model."
  else
    let n := (data.xdata.getD 0 []).length
    if ∃ i < N, (data.xdata.getD i []).length ≠ n ∨ (data.ydata.getD i []).length ≠ n then
      Except.error "Unequal numbers of data points."
    else
      let Mo := dp.numDRAMIterationsDone
      if Mo ≠ 1 ∧ Mo ≠ dp.previousResults.chain_q.length then
        Except.error "The number of given previous results does not match the number of iterations already done."
      else
        let p := mp.values.length
        let M := dp.numDRAMIterations
        let pr := priorOf dp.previousResults
        let c : Ctx :=
          { p := p, n := n, N := N, lib := lib,
            lower := fun i => mp.lowerLimits.getD i 0,
            upper := fun i => mp.upperLimits.getD i 0,
            errEval := fun q => fun t i =>
              (model.errFn.getD i (defaultErrFn E)) q (data.xdata.getD i [])
                (data.ydata.getD i []) (mp.extra.getD i default) t,
            psi := pr.1, nu := pr.2 }
        let s := runLoop c Mo rand Mo (M - Mo) (initState c Mo mp.values dp.previousResults)
        Except.ok
          { prior_psi := pr.1, prior_nu := pr.2, chain_q := s.chain,
            last_cov_q := s.lastCovQ, chain_cov_err := s.chainCovErr }

/-! ### getDRAMMIMODensities (source lines 363–406) -/

/-- Mean of a list of floats (`np.mean`). -/
def listMean (col : List ℚ) : ℚ := col.sum / col.length

/-- Population variance, the square of `np.std` (default `ddof = 0`). -/
def popVariance (col : List ℚ) : ℚ :=
  ((col.map fun x => (x - listMean col) ^ 2).sum) / col.length

/-- `np.std(col)`: the square root (via the library collaborator) of the
population variance (`ddof = 0`, numpy's default). -/
def stdDev (lib : NumLib) (col : List ℚ) : ℚ := lib.rsqrt (popVariance col)

/-- `np.sort` of a float list (ascending). -/
def sortAsc (col : List ℚ) : List ℚ := List.insertionSort (· ≤ ·) col

/-- The kernel bandwidth of `getDRAMMIMODensities` for one parameter column
(source lines 384–396): quartiles by linear interpolation of the sorted
chain at the 1-indexed fractional ranks `(n+1)/4` and `(n+1)/4*3` (the float
products are exact, so `int(np.floor((n+1)/4.0*3.0)) = 3*(n+1)/4` in integer
arithmetic), then Silverman's rule with the robust scale
`min(np.std, IQR/1.34)` when the IQR is positive and `np.std` alone
otherwise.  The index arithmetic matches the source for `n ≥ 4`; for
smaller `n` the source raises `IndexError`. -/
def silvermanBandwidth (lib : NumLib) (col : List ℚ) : ℚ :=
  let nIter := col.length
  let sorted := sortAsc col
  let i1 := (nIter + 1) / 4
  let i3 := 3 * (nIter + 1) / 4
  let f1 : ℚ := ((nIter : ℚ) + 1) / 4 - (i1 : ℚ)
  let f3 : ℚ := ((nIter : ℚ) + 1) / 4 * 3 - (i3 : ℚ)
  let qu1 := (1 - f1) * sorted.getD (i1 - 1) 0 + f1 * sorted.getD i1 0
  let qu3 := (1 - f3) * sorted.getD (i3 - 1) 0 + f3 * sorted.getD i3 0
  let iRange := qu3 - qu1
  if iRange ≤ 0 then
    (106 / 100) * stdDev lib col * lib.rpow nIter (-(1 / 5))
  else
    (106 / 100) * min (stdDev lib col) (iRange / (134 / 100)) * lib.rpow nIter (-(1 / 5))

/-- `np.linspace(a, b, num)` evaluated at node `j`. -/
def linspaceAt (a b : ℚ) (num j : ℕ) : ℚ := a + (b - a) * j / ((num : ℚ) - 1)

/-- Smallest element of a float list (`np.amin`; `0` on the empty list,
which the source never passes). -/
def listMin (col : List ℚ) : ℚ :=
  match col with
  | [] => 0
  | x :: xs => xs.foldl min x

/-- Largest element of a float list (`np.amax`). -/
def listMax (col : List ℚ) : ℚ :=
  match col with
  | [] => 0
  | x :: xs => xs.foldl max x

/-- The evaluation grid of one parameter column: 100 nodes spanning
`[min - 0.08*range, max + 0.08*range]` (source line 382). -/
def gridVal (col : List ℚ) (j : ℕ) : ℚ :=
  linspaceAt (listMin col - 8 / 100 * (listMax col - listMin col))
    (listMax col + 8 / 100 * (listMax col - listMin col)) 100 j

/-- The Gaussian kernel density sum at one grid point (source lines 398–400). -/
def kernelDensityAt (lib : NumLib) (col : List ℚ) (s x : ℚ) : ℚ :=
  1 / (col.length : ℚ) *
      ((col.map fun cv => lib.rexp (-(1 / 2) * ((x - cv) / s) ^ 2) / lib.rsqrt (2 * lib.npi)).sum) /
    s

/-- Column `i` of a row-major chain matrix. -/
def columnOf (rows : List (List ℚ)) (i : ℕ) : List ℚ :=
  rows.map fun rrow => rrow.getD i 0

/-- `getDRAMMIMODensities` (source lines 363–406): per parameter column, the
100-node grid and the kernel density values computed with the Silverman
bandwidth of that column.  Output component `j i` is `qVals[j, i]`
respectively `qProbs[j, i]`. -/
def getDRAMMIMODensities (lib : NumLib) (qChain : List (List ℚ)) :
    (ℕ → ℕ → ℚ) × (ℕ → ℕ → ℚ) :=
  ( fun j i => gridVal (columnOf qChain i) j,
    fun j i =>
      kernelDensityAt lib (columnOf qChain i)
        (silvermanBandwidth lib (columnOf qChain i)) (gridVal (columnOf qChain i) j) )

/-! ### getDRAMMIMOIntervals (source lines 408–460) -/

/-- The random draws `getDRAMMIMOIntervals` consumes: the
`np.random.rand(nSample)` stream `us`, and per sampled index `t` the
`np.random.multivariate_normal(mean, cov)` draw `mvn t mean cov` as a
function of the mean vector and covariance matrix the source passes. -/
structure IntervalRand where
  us : ℕ → ℚ
  mvn : ℕ → Vec → Mat → Vec

/-- Index selection of `getDRAMMIMOIntervals` (source lines 429–433): all of
`0, …, m-1` in order when `nSample == m`, otherwise
`np.floor(np.random.rand(nSample)*m).astype(int)`. -/
def selectIndices (m nSample : ℕ) (us : ℕ → ℚ) : ℕ → ℤ :=
  if nSample = m then fun t => (t : ℤ)
  else fun t => ⌊us t * (m : ℚ)⌋

/-- `ySave[i, t, :]`: the model response of dataset `i` at the parameter
vector drawn from chain row `iS t` (source lines 439–443). -/
def ySaveOf (E : Type) [Inhabited E] (data : DataD) (model : ModelD E)
    (mp : ModelParamsD E) (chain_q : List Vec) (iS : ℕ → ℤ) :
    ℕ → ℕ → ℕ → ℚ :=
  fun i t j =>
    (model.fn.getD i (defaultFn E)) (chain_q.getD (iS t).toNat zeroVec)
      (data.xdata.getD i []) (mp.extra.getD i default) j

/-- `oSave[i, t, :]`: the prediction sample, the response plus component `i`
of the single zero-mean multivariate-normal draw of index `t`, whose
covariance is the residual covariance stored at chain index `iS t`
(source lines 440–444, `randError[i, 0]`). -/
def oSaveOf (E : Type) [Inhabited E] (r : IntervalRand) (data : DataD)
    (model : ModelD E) (mp : ModelParamsD E) (chain_q : List Vec)
    (chain_cov_err : List Mat) (iS : ℕ → ℤ) : ℕ → ℕ → ℕ → ℚ :=
  fun i t j =>
    ySaveOf E data model mp chain_q iS i t j +
      r.mvn t zeroVec (chain_cov_err.getD (iS t).toNat zeroMat) i

/-- The quantile levels `[0.025, 0.5, 0.975]` (source line 424). -/
def limsList : List ℚ := [1 / 40, 1 / 2, 39 / 40]

/-- `np.interp(x, np.arange(len), fp)` for `x ∈ [0, len-1]`: linear
interpolation against the fractional rank. -/
def interpArange (fp : ℕ → ℚ) (x : ℚ) : ℚ :=
  let i := ⌊x⌋₊
  (1 - (x - (i : ℚ))) * fp i + (x - (i : ℚ)) * fp (i + 1)

/-- The sorted list of the `len` sample values of one output location
(`np.sort(..., axis=0)` on one column). -/
def sortedColumn (v : ℕ → ℚ) (len : ℕ) : List ℚ :=
  List.insertionSort (· ≤ ·) ((List.range len).map v)

/-- Interpolated interval bounds of one accumulated sample tensor (source
lines 447–454): component `i l j` is the quantile `lims[l]` of the sorted
samples of dataset `i` at output location `j`. -/
def limsOf (save : ℕ → ℕ → ℕ → ℚ) (nSample : ℕ) : ℕ → ℕ → ℕ → ℚ :=
  fun i l j =>
    interpArange (fun t => (sortedColumn (fun u => save i u j) nSample).getD t 0)
      (limsList.getD l 0 * ((nSample : ℚ) - 1))

/-- `getDRAMMIMOIntervals` (source lines 408–460): select chain indices,
accumulate response samples (`ySave`) and prediction samples (`oSave`), and
interpolate the `{0.025, 0.5, 0.975}` quantiles; returns
`(credLims, predLims)`. -/
def getDRAMMIMOIntervals {E : Type} [Inhabited E] (r : IntervalRand)
    (data : DataD) (model : ModelD E) (mp : ModelParamsD E) (chain_q : List Vec)
    (chain_cov_err : List Mat) (nSample : ℕ) :
    (ℕ → ℕ → ℕ → ℚ) × (ℕ → ℕ → ℕ → ℚ) :=
  let m := chain_q.length
  let iS := selectIndices m nSample r.us
  let ySave := ySaveOf E data model mp chain_q iS
  let oSave := oSaveOf E r data model mp chain_q chain_cov_err iS
  (limsOf ySave nSample, limsOf oSave nSample)

/-! ### Spec-side definitions for refinement comparisons -/

/-- Linear interpolation of the order statistics of a sorted list at the
1-indexed fractional rank `r`, following the spec's description of the
quartile computation: interpolate between the order statistics at positions
`⌊r⌋` and `⌊r⌋ + 1`. -/
def specQuartile (sorted : List ℚ) (r : ℚ) : ℚ :=
  (1 - (r - (⌊r⌋₊ : ℚ))) * sorted.getD (⌊r⌋₊ - 1) 0 +
    (r - (⌊r⌋₊ : ℚ)) * sorted.getD ⌊r⌋₊ 0

/-- The interquartile range as the spec describes it: the 75th-minus-25th
percentile, by linear interpolation between the order statistics at the
fractional ranks `3(n+1)/4` and `(n+1)/4`. -/
def specIQR (col : List ℚ) : ℚ :=
  specQuartile (sortAsc col) (3 * ((col.length : ℚ) + 1) / 4) -
    specQuartile (sortAsc col) (((col.length : ℚ) + 1) / 4)

/-! ### Concrete fixtures used by the witness theorems -/

/-- A concrete numerical library whose `np.exp` always returns `0`
(a possible float value, e.g. on extreme underflow); no theorem depends on
the library's values, so any instance serves as a witness instance. -/
def testLib : NumLib :=
  { rexp := fun _ => 0, rsqrt := fun _ => 1, rpow := fun _ _ => 1, npi := 3,
    inv := fun _ A => A, chol := fun A => A }

/-- A concrete one-parameter, one-dataset, one-point context with bounds
`[0, 1]`. -/
def testCtx : Ctx :=
  { p := 1, n := 1, N := 1, lib := testLib,
    lower := fun _ => 0, upper := fun _ => 1,
    errEval := fun _ => fun _ _ => some 1, psi := zeroMat, nu := 0 }

/-- A concrete in-bounds run state for `testCtx`. -/
def testState : RunState :=
  { q := fun _ => 0, err := fun _ _ => some 1,
    covQ := fun _ _ => 1, covQInv := fun _ _ => 1,
    covErr := fun _ _ => 1, covErrInv := fun _ _ => 1,
    qBar := fun _ => 0, qCov := fun _ _ => 1,
    R1 := fun _ _ => 1, R2 := fun _ _ => 1,
    chain := fun _ => zeroVec, lastCovQ := fun _ _ => 1,
    chainCovErr := fun _ => zeroMat }

/-- Concrete iteration randomness whose proposals step by `+2`, pushing both
candidates out of `testCtx`'s bounds. -/
def testRand : IterRand :=
  { z1 := fun _ => 2, u1 := 0, z2 := fun _ => 2, u2 := 0,
    iw := fun _ A => A }

/-! ### Claim theorems -/

/-- C3 (counterexample): with `psi_s` supplied and `nu_s` not supplied, the
returned prior's `nu_s` is `1`, not `0` as the claim states. -/
theorem c3_nu_default_counterexample :
    (priorOf { psi_s := some fun _ _ => 2, nu_s := none, chain_q := [],
               last_cov_q := zeroMat, chain_cov_err := [] }).2 = 1 ∧
    (priorOf { psi_s := some fun _ _ => 2, nu_s := none, chain_q := [],
               last_cov_q := zeroMat, chain_cov_err := [] }).2 ≠ 0 := by
  refine ⟨rfl, ?_⟩
  intro h
  exact one_ne_zero (h : (1 : ℚ) = 0)

/-- C3 (amended): when `psi_s` is not supplied, the prior defaults to
`psi_s = 0`, `nu_s = 0` (a supplied `nu_s` is then ignored); when both are
supplied they are used unchanged; when `psi_s` is supplied but `nu_s` is
not, `nu_s` defaults to `1`. -/
theorem c3_prior_defaults (prev : PrevResults) :
    priorOf prev =
      match prev.psi_s, prev.nu_s with
      | none, _ => (zeroMat, 0)
      | some ps, none => (ps, 1)
      | some ps, some nus => (ps, nus) := by
  rcases prev with ⟨psi, nu, _, _, _⟩
  cases psi <;> cases nu <;> rfl

/-- C10: each prediction sample equals the corresponding response sample
plus component `i` of the single zero-mean multivariate-normal draw of the
sampled index `t`, whose covariance parameter is the residual covariance
stored at the selected chain index `iS t`; consequently the noise offset is
the same at every output location `j` of dataset `i`. -/
theorem c10_prediction_noise (E : Type) [Inhabited E] (r : IntervalRand)
    (data : DataD) (model : ModelD E) (mp : ModelParamsD E) (chain_q : List Vec)
    (chain_cov_err : List Mat) (iS : ℕ → ℤ) (i t j : ℕ) :
    oSaveOf E r data model mp chain_q chain_cov_err iS i t j =
      ySaveOf E data model mp chain_q iS i t j +
        r.mvn t zeroVec (chain_cov_err.getD (iS t).toNat zeroMat) i ∧
    ∀ j2 : ℕ,
      oSaveOf E r data model mp chain_q chain_cov_err iS i t j -
          ySaveOf E data model mp chain_q iS i t j =
        oSaveOf E r data model mp chain_q chain_cov_err iS i t j2 -
          ySaveOf E data model mp chain_q iS i t j2 := by
  refine ⟨rfl, ?_⟩
  intro j2
  simp only [oSaveOf]
  ring

/-- C2: one iteration of the sampling loop records exactly one new chain
row, at index `k`, and that row is the stage-1 candidate (accept-stage-1),
the stage-2 candidate (accept-stage-2), or the previous accepted state
(reject-both). -/
theorem c2_one_row_per_iteration (c : Ctx) (Mo k : ℕ) (r : IterRand) (s : RunState) :
    (amIteration c Mo k r s).chain = Function.update s.chain k (drStage c s r).q ∧
    (((drStage c s r).outcome = DROutcome.accept1 ∧
        (drStage c s r).q = propose c.p s.q s.R1 r.z1) ∨
      ((drStage c s r).outcome = DROutcome.accept2 ∧
        (drStage c s r).q = propose c.p s.q s.R2 r.z2) ∨
      ((drStage c s r).outcome = DROutcome.reject ∧ (drStage c s r).q = s.q)) := by
  refine ⟨rfl, ?_⟩
  unfold drStage
  by_cases h1 :
      (stage1Eval c s.covErrInv (ssq c.n c.N (unopt s.err) s.covErrInv)
          (propose c.p s.q s.R1 r.z1)).alpha10 > r.u1
  · left
    simp [h1]
  · by_cases h2 :
        (stage2Eval c s.covErrInv s.covQInv (ssq c.n c.N (unopt s.err) s.covErrInv)
            (stage1Eval c s.covErrInv (ssq c.n c.N (unopt s.err) s.covErrInv)
                (propose c.p s.q s.R1 r.z1)).ss1
            (stage1Eval c s.covErrInv (ssq c.n c.N (unopt s.err) s.covErrInv)
                (propose c.p s.q s.R1 r.z1)).alpha10
            s.q (propose c.p s.q s.R1 r.z1) (propose c.p s.q s.R2 r.z2)).alpha210 > r.u2
    · right; left
      simp [h1, h2]
    · right; right
      simp [h1, h2]

/-- C1: at either proposal stage, a candidate with any component strictly
outside `[lowerLimits, upperLimits]` has acceptance probability `0`, so for
any nonnegative uniform draw the acceptance test fails regardless of the
likelihood ratio: an out-of-bounds stage-1 candidate is never the accepted
outcome, an out-of-bounds stage-2 candidate forces the iteration to keep the
previous accepted state, and when both candidates are out of bounds the
chain state is unchanged. -/
theorem c1_out_of_bounds_rejected (c : Ctx) (s : RunState) (r : IterRand)
    (q1 q2 : Vec) (SS0 : ℚ)
    (hq1 : q1 = propose c.p s.q s.R1 r.z1)
    (hq2 : q2 = propose c.p s.q s.R2 r.z2)
    (hSS0 : SS0 = ssq c.n c.N (unopt s.err) s.covErrInv)
    (hu1 : 0 ≤ r.u1) (hu2 : 0 ≤ r.u2) :
    (outOfBounds c.p c.lower c.upper q1 = true →
      (stage1Eval c s.covErrInv SS0 q1).alpha10 = 0 ∧
        (drStage c s r).outcome ≠ DROutcome.accept1) ∧
    ((stage1Eval c s.covErrInv SS0 q1).alpha10 ≤ r.u1 →
      outOfBounds c.p c.lower c.upper q2 = true →
      (stage2Eval c s.covErrInv s.covQInv SS0 (stage1Eval c s.covErrInv SS0 q1).ss1
          (stage1Eval c s.covErrInv SS0 q1).alpha10 s.q q1 q2).alpha210 = 0 ∧
        (drStage c s r).q = s.q ∧ (drStage c s r).err = s.err ∧
        (drStage c s r).outcome = DROutcome.reject) ∧
    (outOfBounds c.p c.lower c.upper q1 = true →
      outOfBounds c.p c.lower c.upper q2 = true →
      (drStage c s r).q = s.q ∧ (drStage c s r).outcome = DROutcome.reject) := by
  subst hq1; subst hq2; subst hSS0
  have halpha :
      outOfBounds c.p c.lower c.upper (propose c.p s.q s.R1 r.z1) = true →
      (stage1Eval c s.covErrInv (ssq c.n c.N (unopt s.err) s.covErrInv)
          (propose c.p s.q s.R1 r.z1)).alpha10 = 0 := by
    intro hb
    simp [stage1Eval, hb]
  have ha210 :
      outOfBounds c.p c.lower c.upper (propose c.p s.q s.R2 r.z2) = true →
      (stage2Eval c s.covErrInv s.covQInv (ssq c.n c.N (unopt s.err) s.covErrInv)
          (stage1Eval c s.covErrInv (ssq c.n c.N (unopt s.err) s.covErrInv)
              (propose c.p s.q s.R1 r.z1)).ss1
          (stage1Eval c s.covErrInv (ssq c.n c.N (unopt s.err) s.covErrInv)
              (propose c.p s.q s.R1 r.z1)).alpha10
          s.q (propose c.p s.q s.R1 r.z1) (propose c.p s.q s.R2 r.z2)).alpha210 = 0 := by
    intro hb
    simp [stage2Eval, hb]
  have hreject :
      (stage1Eval c s.covErrInv (ssq c.n c.N (unopt s.err) s.covErrInv)
          (propose c.p s.q s.R1 r.z1)).alpha10 ≤ r.u1 →
      outOfBounds c.p c.lower c.upper (propose c.p s.q s.R2 r.z2) = true →
      (drStage c s r).q = s.q ∧ (drStage c s r).err = s.err ∧
        (drStage c s r).outcome = DROutcome.reject := by
    intro hle hb2
    have h2 := ha210 hb2
    simp only [drStage]
    rw [if_neg (not_lt.2 hle), if_neg (by rw [h2]; exact not_lt.2 hu2)]
    exact ⟨rfl, rfl, rfl⟩
  refine ⟨fun hb1 => ⟨halpha hb1, ?_⟩, fun hle hb2 => ⟨ha210 hb2, hreject hle hb2⟩,
    fun hb1 hb2 => ?_⟩
  · have h0 := halpha hb1
    simp only [drStage]
    rw [if_neg (by rw [h0]; exact not_lt.2 hu1)]
    split
    · intro h
      exact DROutcome.noConfusion h
    · intro h
      exact DROutcome.noConfusion h
  · have h0 := halpha hb1
    have hr := hreject (by rw [h0]; exact hu1) hb2
    exact ⟨hr.1, hr.2.2⟩

/-- C1 witness: with the concrete context, state and draws of the fixtures,
the stage-1 candidate is out of bounds, its acceptance probability is `0`,
and the iteration does not accept it. -/
theorem c1_witness :
    outOfBounds testCtx.p testCtx.lower testCtx.upper
        (propose testCtx.p testState.q testState.R1 testRand.z1) = true ∧
    ((stage1Eval testCtx testState.covErrInv
        (ssq testCtx.n testCtx.N (unopt testState.err) testState.covErrInv)
        (propose testCtx.p testState.q testState.R1 testRand.z1)).alpha10 = 0 ∧
      (drStage testCtx testState testRand).outcome ≠ DROutcome.accept1) :=
  ⟨by simp [outOfBounds, propose, testCtx, testState, testRand],
    (c1_out_of_bounds_rejected testCtx testState testRand _ _ _ rfl rfl rfl
        (by simp [testRand]) (by simp [testRand])).1
      (by simp [outOfBounds, propose, testCtx, testState, testRand])⟩

/-- C9: whenever stage 2 is reached (the stage-1 test `alpha10 > u1` failed
for a uniform draw `u1 < 1`), `alpha10 < 1`, so the divisor `1 - alpha10` of
the generalized stage-2 acceptance probability is nonzero; and `alpha210` is
defined to be `0` whenever `alpha12 = 1`, so the `(1 - alpha12)` factor
never makes the expression ill-defined. -/
theorem c9_stage2_division_safe (c : Ctx) (covErrInv : Mat) (SS0 : ℚ) (q1 : Vec)
    (r : IterRand)
    (hrej : ¬(stage1Eval c covErrInv SS0 q1).alpha10 > r.u1) (hu : r.u1 < 1) :
    (stage1Eval c covErrInv SS0 q1).alpha10 < 1 ∧
    1 - (stage1Eval c covErrInv SS0 q1).alpha10 ≠ 0 ∧
    ∀ a10 p20 j12 j10 a12 : ℚ, a12 = 1 → alpha210Of a10 p20 j12 j10 a12 = 0 := by
  have hlt : (stage1Eval c covErrInv SS0 q1).alpha10 < 1 :=
    lt_of_le_of_lt (not_lt.1 hrej) hu
  refine ⟨hlt, sub_ne_zero.mpr (ne_of_gt hlt), ?_⟩
  intro a10 p20 j12 j10 a12 h
  simp [alpha210Of, h]

/-- C9 witness: a concrete stage-1 rejection with `u1 = 0 < 1`, from which
`alpha10 < 1`. -/
theorem c9_witness :
    ¬(stage1Eval testCtx testState.covErrInv 0 (fun _ => 1)).alpha10 > testRand.u1 ∧
    (stage1Eval testCtx testState.covErrInv 0 (fun _ => 1)).alpha10 < 1 :=
  ⟨by
      simp [stage1Eval, testCtx, testState, testRand, testLib, outOfBounds,
        hasNaNEntry, ssq, mtraceIdx, mmulIdx, mtransp, unopt]
      norm_num,
    (c9_stage2_division_safe testCtx testState.covErrInv 0 (fun _ => 1) testRand
        (by
          simp [stage1Eval, testCtx, testState, testRand, testLib, outOfBounds,
            hasNaNEntry, ssq, mtraceIdx, mmulIdx, mtransp, unopt]
          norm_num)
        (by norm_num [testRand])).1⟩

/-- C5: for `k ≥ ko` the running statistics are updated by exactly the
recursive formulas `qBar_k = (k*qBar_old + q_k)/(k+1)` and
`qCov_k = (k-1)/k * qCov_old + 1/k * (k*qBar_old*qBar_oldᵗ
- (k+1)*qBar_k*qBar_kᵗ + q_k*q_kᵗ)` with `q_k` the newly recorded chain
row; at `k = ko - 1` they are computed directly from the first `ko` chain
rows; for `k < ko - 1` they are unchanged. -/
theorem c5_running_stats_update (c : Ctx) (Mo k : ℕ) (r : IterRand) (s : RunState) :
    (ko ≤ k →
      (amIteration c Mo k r s).qBar =
        (fun i => ((k : ℚ) * s.qBar i + (amIteration c Mo k r s).chain k i) /
          ((k : ℚ) + 1)) ∧
      (amIteration c Mo k r s).qCov =
        (fun a b =>
          ((k : ℚ) - 1) / (k : ℚ) * s.qCov a b +
            1 / (k : ℚ) *
              ((k : ℚ) * (s.qBar a * s.qBar b) -
                  ((k : ℚ) + 1) *
                    ((amIteration c Mo k r s).qBar a * (amIteration c Mo k r s).qBar b) +
                (amIteration c Mo k r s).chain k a * (amIteration c Mo k r s).chain k b))) ∧
    (k = ko - 1 →
      (amIteration c Mo k r s).qBar = meanRowsIdx ko (amIteration c Mo k r s).chain ∧
      (amIteration c Mo k r s).qCov = covRowsIdx ko (amIteration c Mo k r s).chain) ∧
    (k < ko - 1 →
      (amIteration c Mo k r s).qBar = s.qBar ∧ (amIteration c Mo k r s).qCov = s.qCov) := by
  have hko : ko = 100 := rfl
  refine ⟨fun h => ?_, fun h => ?_, fun h => ?_⟩
  · have hne : ¬k = ko - 1 := by omega
    constructor
    · simp only [amIteration, hne, h, if_true, if_false, ite_true, ite_false,
        Function.update_same]
    · simp only [amIteration, hne, h, if_true, if_false, ite_true, ite_false,
        Function.update_same]
  · subst h
    constructor
    · simp only [amIteration, ite_true]
    · simp only [amIteration, ite_true]
  · have hne1 : ¬k = ko - 1 := by omega
    have hne2 : ¬ko ≤ k := by omega
    constructor
    · simp only [amIteration, hne1, hne2, if_false, ite_false]
    · simp only [amIteration, hne1, hne2, if_false, ite_false]

/-- C5 witness: the three branches applied at `k = 100`, `k = 99` and
`k = 50` with `Mo = 0` on the concrete fixtures. -/
theorem c5_witness :
    (ko ≤ 100 ∧
      (amIteration testCtx 0 100 testRand testState).qBar =
        (fun i => (((100 : ℕ) : ℚ) * testState.qBar i +
            (amIteration testCtx 0 100 testRand testState).chain 100 i) /
          (((100 : ℕ) : ℚ) + 1))) ∧
    ((99 : ℕ) = ko - 1 ∧
      (amIteration testCtx 0 99 testRand testState).qBar =
        meanRowsIdx ko (amIteration testCtx 0 99 testRand testState).chain) ∧
    ((50 : ℕ) < ko - 1 ∧
      (amIteration testCtx 0 50 testRand testState).qBar = testState.qBar) :=
  ⟨⟨by decide,
      ((c5_running_stats_update testCtx 0 100 testRand testState).1 (by decide)).1⟩,
    ⟨by decide,
      ((c5_running_stats_update testCtx 0 99 testRand testState).2.1 (by decide)).1⟩,
    ⟨by decide,
      ((c5_running_stats_update testCtx 0 50 testRand testState).2.2 (by decide)).1⟩⟩

/-- C6: the step matrices `R1`, `R2` and the committed proposal covariance
`cov_q` with its inverse change only at iterations with `k ≥ ko` and
`(k + Mo) % ko = 0`, where `cov_q` is set to the current running covariance,
`R1 = Cholesky(cov_q)*sp`, `R2 = R1/5` and the inverse is recomputed; at
every other iteration all four are unchanged. -/
theorem c6_step_matrices_frame (c : Ctx) (Mo k : ℕ) (r : IterRand) (s : RunState) :
    (¬(ko ≤ k ∧ (k + Mo) % ko = 0) →
      (amIteration c Mo k r s).R1 = s.R1 ∧ (amIteration c Mo k r s).R2 = s.R2 ∧
      (amIteration c Mo k r s).covQ = s.covQ ∧
      (amIteration c Mo k r s).covQInv = s.covQInv) ∧
    (ko ≤ k → (k + Mo) % ko = 0 →
      (amIteration c Mo k r s).covQ = (amIteration c Mo k r s).qCov ∧
      (amIteration c Mo k r s).R1 =
        matScale (c.lib.chol ((amIteration c Mo k r s).qCov)) (spOf c.lib c.p) ∧
      (∀ i j, (amIteration c Mo k r s).R2 i j = (amIteration c Mo k r s).R1 i j / 5) ∧
      (amIteration c Mo k r s).covQInv =
        (if c.p = 1 then recipMat ((amIteration c Mo k r s).covQ)
          else c.lib.inv c.p ((amIteration c Mo k r s).covQ))) := by
  constructor
  · intro h
    refine ⟨?_, ?_, ?_, ?_⟩ <;>
      simp only [amIteration, h, if_false, ite_false]
  · intro h1 h2
    have hc : ko ≤ k ∧ (k + Mo) % ko = 0 := ⟨h1, h2⟩
    refine ⟨?_, ?_, ?_, ?_⟩
    · simp only [amIteration, hc, h1, h2, and_self, if_true, ite_true]
    · simp only [amIteration, hc, h1, h2, and_self, if_true, ite_true]
    · intro i j
      simp only [amIteration, hc, h1, h2, and_self, if_true, ite_true, matScale]
    · simp only [amIteration, hc, h1, h2, and_self, if_true, ite_true]

/-- C6 witness: the frame branch at `k = 101` (no adaptation) and the
adaptation branch at `k = 100`, both with `Mo = 0`, on the concrete
fixtures. -/
theorem c6_witness :
    (¬(ko ≤ 101 ∧ (101 + 0) % ko = 0) ∧
      (amIteration testCtx 0 101 testRand testState).R1 = testState.R1) ∧
    (ko ≤ 100 ∧ (100 + 0) % ko = 0 ∧
      (amIteration testCtx 0 100 testRand testState).covQ =
        (amIteration testCtx 0 100 testRand testState).qCov) :=
  ⟨⟨by decide,
      ((c6_step_matrices_frame testCtx 0 101 testRand testState).1 (by decide)).1⟩,
    ⟨by decide, by decide,
      ((c6_step_matrices_frame testCtx 0 100 testRand testState).2 (by decide)
          (by decide)).1⟩⟩

/-- C4: each of the three validation failures (unequal dataset counts,
unequal point counts, continuation-length mismatch when the done-count is
not the fresh-run value `1`) makes `getDRAMMIMOChains` return the
corresponding validation error, for every random stream — so before any
sampling iteration runs, and with no chain output produced. -/
theorem c4_validation_errors {E : Type} [Inhabited E] (lib : NumLib)
    (rand : ℕ → IterRand) (data : DataD) (model : ModelD E) (mp : ModelParamsD E)
    (dp : DRAMParamsD) :
    ((data.ydata.length ≠ data.xdata.length ∨ model.fn.length ≠ data.xdata.length ∨
        model.errFn.length ≠ data.xdata.length ∨ mp.extra.length ≠ data.xdata.length) →
      getDRAMMIMOChains lib rand data model mp dp =
        Except.error "Unequal numbers of sets in either data or model.") ∧
    (¬(data.ydata.length ≠ data.xdata.length ∨ model.fn.length ≠ data.xdata.length ∨
        model.errFn.length ≠ data.xdata.length ∨ mp.extra.length ≠ data.xdata.length) →
      (∃ i < data.xdata.length,
        (data.xdata.getD i []).length ≠ (data.xdata.getD 0 []).length ∨
          (data.ydata.getD i []).length ≠ (data.xdata.getD 0 []).length) →
      getDRAMMIMOChains lib rand data model mp dp =
        Except.error "Unequal numbers of data points.") ∧
    (¬(data.ydata.length ≠ data.xdata.length ∨ model.fn.length ≠ data.xdata.length ∨
        model.errFn.length ≠ data.xdata.length ∨ mp.extra.length ≠ data.xdata.length) →
      ¬(∃ i < data.xdata.length,
        (data.xdata.getD i []).length ≠ (data.xdata.getD 0 []).length ∨
          (data.ydata.getD i []).length ≠ (data.xdata.getD 0 []).length) →
      (dp.numDRAMIterationsDone ≠ 1 ∧
        dp.numDRAMIterationsDone ≠ dp.previousResults.chain_q.length) →
      getDRAMMIMOChains lib rand data model mp dp =
        Except.error "The number of given previous results does not match the number of iterations already done.") := by
  refine ⟨fun h1 => ?_, fun h1 h2 => ?_, fun h1 h2 h3 => ?_⟩
  · simp only [getDRAMMIMOChains]
    rw [if_pos h1]
  · simp only [getDRAMMIMOChains]
    rw [if_neg h1, if_pos h2]
  · simp only [getDRAMMIMOChains]
    rw [if_neg h1, if_neg h2, if_pos h3]

/-- C4 witness: three concrete invalid configurations, one per validation
error (a missing `ydata`, a dataset with two points next to one with one,
and a done-count of `5` with an empty previous chain), each producing the
corresponding error. -/
theorem c4_witness :
    getDRAMMIMOChains (E := Unit) testLib (fun _ => testRand) ⟨[[1]], []⟩ ⟨[], []⟩
        ⟨[], [], [], []⟩ ⟨1, 1, ⟨none, none, [], zeroMat, []⟩⟩ =
      Except.error "Unequal numbers of sets in either data or model." ∧
    getDRAMMIMOChains (E := Unit) testLib (fun _ => testRand) ⟨[[1], [1, 2]], [[1], [1]]⟩
        ⟨[defaultFn Unit, defaultFn Unit], [defaultErrFn Unit, defaultErrFn Unit]⟩
        ⟨[], [], [], [(), ()]⟩ ⟨1, 1, ⟨none, none, [], zeroMat, []⟩⟩ =
      Except.error "Unequal numbers of data points." ∧
    getDRAMMIMOChains (E := Unit) testLib (fun _ => testRand) ⟨[[1]], [[1]]⟩
        ⟨[defaultFn Unit], [defaultErrFn Unit]⟩ ⟨[], [], [], [()]⟩
        ⟨5, 5, ⟨none, none, [], zeroMat, []⟩⟩ =
      Except.error "The number of given previous results does not match the number of iterations already done." :=
  ⟨(c4_validation_errors testLib (fun _ => testRand) _ _ _ _).1 (by decide),
    (c4_validation_errors testLib (fun _ => testRand) _ _ _ _).2.1 (by decide) (by decide),
    (c4_validation_errors testLib (fun _ => testRand) _ _ _ _).2.2 (by decide) (by decide)
      (by decide)⟩

/-- C8: if `nSample` equals the chain length `m`, the selected indices are
exactly `0, …, m-1` in order; otherwise each selected index is
`⌊us t * m⌋`, which for a uniform draw `us t ∈ [0, 1)` is a valid row index
in `{0, …, m-1}`, and it equals `j` exactly when `us t` falls in the
length-`1/m` interval `[j/m, (j+1)/m)` — the uniform-with-replacement
semantics of the draw. -/
theorem c8_interval_index_selection (m nSample : ℕ) (us : ℕ → ℚ) :
    (nSample = m → ∀ t, selectIndices m nSample us t = (t : ℤ)) ∧
    (nSample ≠ m →
      ∀ t, selectIndices m nSample us t = ⌊us t * (m : ℚ)⌋ ∧
        (0 ≤ us t → us t < 1 → 0 < m →
          0 ≤ ⌊us t * (m : ℚ)⌋ ∧ ⌊us t * (m : ℚ)⌋ < (m : ℤ)) ∧
        (0 < m → ∀ j : ℕ,
          (⌊us t * (m : ℚ)⌋ = (j : ℤ) ↔
            (j : ℚ) / (m : ℚ) ≤ us t ∧ us t < ((j : ℚ) + 1) / (m : ℚ)))) := by
  constructor
  · intro h t
    simp [selectIndices, h]
  · intro h t
    refine ⟨by simp [selectIndices, h], fun h0 h1 hm => ⟨?_, ?_⟩, fun hm j => ?_⟩
    · exact Int.floor_nonneg.2 (mul_nonneg h0 (by positivity))
    · have hmQ : (0 : ℚ) < (m : ℚ) := by exact_mod_cast hm
      refine Int.floor_lt.2 ?_
      push_cast
      calc us t * (m : ℚ) < 1 * (m : ℚ) := mul_lt_mul_of_pos_right h1 hmQ
        _ = (m : ℚ) := one_mul _
    · have hmQ : (0 : ℚ) < (m : ℚ) := by exact_mod_cast hm
      rw [Int.floor_eq_iff, div_le_iff₀ hmQ, lt_div_iff₀ hmQ]
      push_cast
      tauto

/-- C8 witness: with chain length `4`, requesting `4` samples selects index
`2` as itself, and requesting `2` samples selects by the floor formula. -/
theorem c8_witness :
    selectIndices 4 4 (fun _ => 0) 2 = ((2 : ℕ) : ℤ) ∧
    selectIndices 4 2 (fun _ => 0) 0 = ⌊(0 : ℚ) * ((4 : ℕ) : ℚ)⌋ :=
  ⟨(c8_interval_index_selection 4 4 fun _ => 0).1 rfl 2,
    ((c8_interval_index_selection 4 2 fun _ => 0).2 (by decide) 0).1⟩

/-- C7: for a chain column with at least `4` rows, the kernel bandwidth is
`1.06 * min(sigma, IQR/1.34) * n^(-1/5)` when the interpolated IQR (between
the order statistics at the fractional ranks `(n+1)/4` and `3(n+1)/4`) is
strictly positive, and `1.06 * sigma * n^(-1/5)` otherwise, with `sigma` the
standard deviation `np.std` computes (population form, `ddof = 0`). -/
theorem c7_bandwidth_formula (lib : NumLib) (col : List ℚ) (h4 : 4 ≤ col.length) :
    silvermanBandwidth lib col =
      if 0 < specIQR col then
        (106 / 100) * min (stdDev lib col) (specIQR col / (134 / 100)) *
          lib.rpow col.length (-(1 / 5))
      else (106 / 100) * stdDev lib col * lib.rpow col.length (-(1 / 5)) := by
  have e1 : (⌊((col.length : ℚ) + 1) / 4⌋₊) = (col.length + 1) / 4 := by
    rw [show ((col.length : ℚ) + 1) = ((col.length + 1 : ℕ) : ℚ) by push_cast; ring,
      show (4 : ℚ) = ((4 : ℕ) : ℚ) by norm_num, Nat.floor_div_nat, Nat.floor_natCast]
  have e3 : (⌊3 * ((col.length : ℚ) + 1) / 4⌋₊) = 3 * (col.length + 1) / 4 := by
    rw [show 3 * ((col.length : ℚ) + 1) = ((3 * (col.length + 1) : ℕ) : ℚ) by
        push_cast; ring,
      show (4 : ℚ) = ((4 : ℕ) : ℚ) by norm_num, Nat.floor_div_nat, Nat.floor_natCast]
  have hIQR :
      ((1 - (((col.length : ℚ) + 1) / 4 * 3 - ((3 * (col.length + 1) / 4 : ℕ) : ℚ))) *
            (sortAsc col).getD (3 * (col.length + 1) / 4 - 1) 0 +
          (((col.length : ℚ) + 1) / 4 * 3 - ((3 * (col.length + 1) / 4 : ℕ) : ℚ)) *
            (sortAsc col).getD (3 * (col.length + 1) / 4) 0) -
        ((1 - (((col.length : ℚ) + 1) / 4 - (((col.length + 1) / 4 : ℕ) : ℚ))) *
            (sortAsc col).getD ((col.length + 1) / 4 - 1) 0 +
          (((col.length : ℚ) + 1) / 4 - (((col.length + 1) / 4 : ℕ) : ℚ)) *
            (sortAsc col).getD ((col.length + 1) / 4) 0) = specIQR col := by
    simp only [specIQR, specQuartile, e1, e3]
    ring
  simp only [silvermanBandwidth]
  rw [hIQR]
  rcases le_or_lt (specIQR col) 0 with h | h
  · rw [if_pos h, if_neg (not_lt.2 h)]
  · rw [if_neg (not_le.2 h), if_pos h]

/-- C7 witness: the bandwidth formula applied to the four-row column
`[1, 2, 3, 4]`. -/
theorem c7_witness :
    4 ≤ ([1, 2, 3, 4] : List ℚ).length ∧
    silvermanBandwidth testLib [1, 2, 3, 4] =
      (if 0 < specIQR [1, 2, 3, 4] then
        (106 / 100) * min (stdDev testLib [1, 2, 3, 4])
            (specIQR [1, 2, 3, 4] / (134 / 100)) *
          testLib.rpow ([1, 2, 3, 4] : List ℚ).length (-(1 / 5))
      else
        (106 / 100) * stdDev testLib [1, 2, 3, 4] *
          testLib.rpow ([1, 2, 3, 4] : List ℚ).length (-(1 / 5))) :=
  ⟨by decide, c7_bandwidth_formula testLib [1, 2, 3, 4] (by decide)⟩

end DRAMMIMO
